import Mathlib

/-!
Verification of the K1 digital-twin core (`src/sim/core.py`, `src/api/server.py`,
`src/cli/main.py`) against its natural-language specification.

Shallow embedding conventions:
* Python's unbounded integers become `Nat` (all counters here are non-negative)
  or `Int` (the CLI `ticks` argument, which `argparse` parses with `type=int`
  and may be negative).
* The filesystem interaction of `load_assets` (`os.path.isdir`, `os.listdir`)
  is a `FileSystem` record: `isdir` is the boolean the code branches on, and
  `listdir` is the fallible listing (`Except.error` models `os.listdir`
  raising).  Fallible Python code is embedded in the `Except` monad so that an
  uncaught exception would surface as `Except.error` in a caller.
* `time.sleep` has no effect on any observable state, so the `interval`
  arguments are carried but have no semantic content.
* The locking discipline of `TwinEngine` is modelled separately as the event
  trace each method body performs on the two shared fields (`tick_count`,
  `assets_count`): `acquire`/`release` of the one lock, and reads/writes of
  the fields, transcribed statement by statement from the method bodies.
  `assets_dir` is construction-time configuration and is never written after
  `__init__`, so it is not part of the traced shared state.
-/

namespace K1DT

/-- A JSON scalar as produced by the server's `json.dumps` calls: every value
in the bodies built by `server.py` is either a string or a non-negative
integer. -/
inductive JValue
  | str (s : String)
  | num (n : Nat)
deriving DecidableEq, Repr

/-- A JSON object, as an insertion-ordered key/value list (Python dicts keep
insertion order, and `json.dumps` serialises in that order). -/
abbrev JsonObj := List (String × JValue)

/-- The twin engine state: `TwinEngine.__init__` in `src/sim/core.py` sets
`assets_dir` from its argument and initialises `tick_count = 0`,
`assets_count = 0`, `_running = False`. -/
structure TwinEngine where
  assets_dir : String
  tick_count : Nat
  assets_count : Nat
  running : Bool
deriving DecidableEq, Repr

/-- `TwinEngine(assets_dir)` — the constructor, default argument
`"00_Engineering_Source"` written explicitly at use sites. -/
def TwinEngine.init (assets_dir : String) : TwinEngine :=
  { assets_dir := assets_dir, tick_count := 0, assets_count := 0, running := false }

/-- The slice of the filesystem that `load_assets` observes: the result of
`os.path.isdir(assets_dir)` and the result of `os.listdir(assets_dir)`
(`Except.error ()` models `os.listdir` raising any exception). -/
structure FileSystem where
  isdir : Bool
  listdir : Except Unit (List String)
deriving Repr

/-- The mapping returned by `TwinEngine.state`:
`{"tick": self.tick_count, "assets": self.assets_count}`. -/
structure Snapshot where
  tick : Nat
  assets : Nat
deriving DecidableEq, Repr

/-- Python's `f.startswith(".")` with the one-character hidden-file marker:
true iff the first character of `f` is `'.'`.  (Lean's own `String.startsWith`
is implemented on byte positions and does not reduce definitionally, so the
same check is written directly on the character list.) -/
def startswith_dot (f : String) : Bool :=
  match f.data with
  | [] => false
  | c :: _ => c == '.'

/-- `TwinEngine.load_assets` (`src/sim/core.py` lines 13–20): if
`not os.path.isdir(self.assets_dir)` set `assets_count = 0` and return;
otherwise set `assets_count` to the number of `os.listdir` entries not
starting with `"."`, absorbing any listing exception by setting
`assets_count = 0`.  The `Except` result type records that no exception
escapes: every branch returns `Except.ok`. -/
def TwinEngine.load_assets (e : TwinEngine) (fs : FileSystem) : Except Unit TwinEngine :=
  if !fs.isdir then
    Except.ok { e with assets_count := 0 }
  else
    match fs.listdir with
    | Except.ok entries =>
        Except.ok { e with assets_count := (entries.filter (fun f => !startswith_dot f)).length }
    | Except.error _ =>
        Except.ok { e with assets_count := 0 }

/-- `TwinEngine.state` (lines 22–24): under the lock, return
`{"tick": self.tick_count, "assets": self.assets_count}`.  The body contains
no assignment, so in the functional embedding it is a pure reader. -/
def TwinEngine.state (e : TwinEngine) : Snapshot :=
  { tick := e.tick_count, assets := e.assets_count }

/-- `TwinEngine.tick` (lines 26–28): under the lock, `self.tick_count += 1`. -/
def TwinEngine.tick (e : TwinEngine) : TwinEngine :=
  { e with tick_count := e.tick_count + 1 }

/-- `n` sequential calls to `tick()`. -/
def TwinEngine.tickN (e : TwinEngine) : Nat → TwinEngine
  | 0 => e
  | n + 1 => (e.tickN n).tick

/-- Helper: the engine `load_assets` produces (the computed new state,
factored out so totality can be stated as one equation). -/
def loadResult (e : TwinEngine) (fs : FileSystem) : TwinEngine :=
  { e with assets_count :=
      if fs.isdir then
        match fs.listdir with
        | Except.ok entries => (entries.filter (fun f => !startswith_dot f)).length
        | Except.error _ => 0
      else 0 }

theorem load_assets_total (e : TwinEngine) (fs : FileSystem) :
    e.load_assets fs = Except.ok (loadResult e fs) := by
  unfold TwinEngine.load_assets loadResult
  cases hd : fs.isdir with
  | false => simp
  | true =>
    cases hl : fs.listdir with
    | ok entries => simp
    | error u => simp

theorem tickN_tick_count (e : TwinEngine) (n : Nat) :
    (e.tickN n).tick_count = e.tick_count + n := by
  induction n with
  | zero => rfl
  | succ k ih => simp [TwinEngine.tickN, TwinEngine.tick, ih, Nat.add_assoc]

theorem tickN_frame (e : TwinEngine) (n : Nat) :
    (e.tickN n).assets_count = e.assets_count ∧
      (e.tickN n).assets_dir = e.assets_dir ∧ (e.tickN n).running = e.running := by
  induction n with
  | zero => exact ⟨rfl, rfl, rfl⟩
  | succ k ih => simpa [TwinEngine.tickN, TwinEngine.tick] using ih

/-- C1: starting from a freshly constructed engine, `N` sequential `tick()`
calls leave `state().tick = N`, and each single `tick()` increments
`tick_count` by exactly 1. -/
theorem tick_counts_exactly (d : String) (n : Nat) (e : TwinEngine) :
    ((TwinEngine.init d).tickN n).state.tick = n ∧
      e.tick.tick_count = e.tick_count + 1 := by
  constructor
  · simp [TwinEngine.state, tickN_tick_count, TwinEngine.init]
  · rfl

/-! ### Lock-discipline model

Each `TwinEngine` method body is transcribed as the sequence of atomic events
it performs on the shared fields: acquiring/releasing `self._lock` and
reading/writing `self.tick_count` / `self.assets_count`. -/

/-- The two shared mutable fields of the twin. -/
inductive TwinField
  | tickCount
  | assetsCount
deriving DecidableEq, Repr

/-- One atomic step of a method body, as far as the shared state is
concerned. -/
inductive Event
  | acquire
  | release
  | readF (f : TwinField)
  | writeF (f : TwinField)
deriving DecidableEq, Repr

/-- `tick` body: `with self._lock: self.tick_count += 1` — the augmented
assignment reads then writes `tick_count`, inside the lock. -/
def tickEvents : List Event :=
  [Event.acquire, Event.readF TwinField.tickCount, Event.writeF TwinField.tickCount,
   Event.release]

/-- `state` body: `with self._lock: return {"tick": self.tick_count,
"assets": self.assets_count}` — two reads inside the lock. -/
def stateEvents : List Event :=
  [Event.acquire, Event.readF TwinField.tickCount, Event.readF TwinField.assetsCount,
   Event.release]

/-- `load_assets` body (lines 13–20): every branch ends in an assignment
`self.assets_count = ...` and the body never mentions `self._lock`, so the
trace is a bare write in each branch. -/
def loadAssetsEvents : List Event :=
  [Event.writeF TwinField.assetsCount]

/-- `guardedFrom d es` : scanning `es` with current lock depth `d`, every
field read/write happens at positive depth. -/
def guardedFrom : Nat → List Event → Bool
  | _, [] => true
  | d, Event.acquire :: rest => guardedFrom (d + 1) rest
  | d, Event.release :: rest => guardedFrom (d - 1) rest
  | d, Event.readF _ :: rest => decide (0 < d) && guardedFrom d rest
  | d, Event.writeF _ :: rest => decide (0 < d) && guardedFrom d rest

/-- A method trace is guarded when every shared-field access happens with the
lock held. -/
def guarded (es : List Event) : Bool := guardedFrom 0 es

/-- The fields a trace writes, in order. -/
def writesOf (es : List Event) : List TwinField :=
  es.filterMap fun ev =>
    match ev with
    | Event.writeF f => some f
    | _ => none

/-- C2 counterexample: it is false that all three of `tick()`,
`load_assets()` and `state()` access the shared fields only under the lock —
`load_assets` writes `assets_count` with no lock acquisition at all. -/
theorem not_all_ops_guarded :
    ¬ (guarded tickEvents = true ∧ guarded stateEvents = true ∧
        guarded loadAssetsEvents = true) := by
  decide

/-- C2 amended: `tick()` and `state()` access the shared fields only while
holding the lock, but `load_assets()` writes `assets_count` entirely outside
the lock (its only shared-state effect is that unguarded write). -/
theorem lock_discipline :
    guarded tickEvents = true ∧ guarded stateEvents = true ∧
      guarded loadAssetsEvents = false ∧
      writesOf loadAssetsEvents = [TwinField.assetsCount] := by
  decide

/-! ### HTTP front end (`src/api/server.py`)

`BaseHTTPRequestHandler` exposes the raw request target (path plus any query
string, exactly as sent) as `self.path`; `do_GET` compares that string with
`==`.  `do_GET` is embedded as a function of the request target and the
shared engine, returning the response together with the (possibly updated)
engine so that frame properties are expressible. -/

/-- An HTTP response as assembled by `Handler._send_json`: a status code and
a JSON object body (the handler also sets `Content-Type` and an exact
`Content-Length`, which carry no further logical content). -/
structure HttpResponse where
  status : Nat
  body : JsonObj
deriving DecidableEq, Repr

/-- `Handler._send_json(obj, status)` (lines 13–19). -/
def send_json (obj : JsonObj) (status : Nat) : HttpResponse :=
  { status := status, body := obj }

/-- `Handler.do_GET` (lines 21–28): `"/"` or `"/health"` → `{"status":"ok"}`;
`"/state"` → the engine snapshot as `{"tick": ..., "assets": ...}`; anything
else → 404 `{"error":"not found"}`.  The only engine call is the read
`engine.state()`, so the engine component is returned unchanged. -/
def do_GET (path : String) (e : TwinEngine) : HttpResponse × TwinEngine :=
  if path = "/" ∨ path = "/health" then
    (send_json [("status", JValue.str "ok")] 200, e)
  else if path = "/state" then
    (send_json [("tick", JValue.num e.state.tick), ("assets", JValue.num e.state.assets)] 200, e)
  else
    (send_json [("error", JValue.str "not found")] 404, e)

/-- `n` successive `GET /health` requests against the shared engine. -/
def healthN (e : TwinEngine) : Nat → TwinEngine
  | 0 => e
  | n + 1 => (do_GET "/health" (healthN e n)).2

/-- C5: `GET` routing — `/` and `/health` answer 200 `{"status":"ok"}`,
`/state` answers 200 with the engine's current tick and asset count, and any
other path answers a structured 404 `{"error":"not found"}`. -/
theorem do_GET_routes (p : String) (e : TwinEngine) :
    do_GET "/" e = (send_json [("status", JValue.str "ok")] 200, e) ∧
      do_GET "/health" e = (send_json [("status", JValue.str "ok")] 200, e) ∧
      do_GET "/state" e =
        (send_json [("tick", JValue.num e.tick_count),
          ("assets", JValue.num e.assets_count)] 200, e) ∧
      (p ≠ "/" → p ≠ "/health" → p ≠ "/state" →
        do_GET p e = (send_json [("error", JValue.str "not found")] 404, e)) := by
  refine ⟨rfl, rfl, rfl, ?_⟩
  intro h1 h2 h3
  simp [do_GET, h1, h2, h3]

/-- C5 witness: the routing theorem applied to the concrete unknown path
`"/missing"` on a fresh engine. -/
theorem do_GET_routes_witness :
    do_GET "/missing" (TwinEngine.init "A") =
      (send_json [("error", JValue.str "not found")] 404, TwinEngine.init "A") :=
  (do_GET_routes "/missing" (TwinEngine.init "A")).2.2.2
    (by decide) (by decide) (by decide)

/-- C7: a `GET /health` request returns the constant body `{"status":"ok"}`
with status 200 and leaves the engine untouched; hence any number of
successive health requests leaves the engine exactly as it was. -/
theorem health_no_mutation (e : TwinEngine) (n : Nat) :
    do_GET "/health" e = (send_json [("status", JValue.str "ok")] 200, e) ∧
      healthN e n = e := by
  refine ⟨rfl, ?_⟩
  induction n with
  | zero => rfl
  | succ k ih => simp [healthN, ih, do_GET]

/-- C10: route matching is exact string equality on the full request target —
a path answers 200 exactly when it is one of the three literal routes, and in
particular `/state?x=1` and `/state/` fall through to the 404 response. -/
theorem do_GET_exact_match (p : String) (e : TwinEngine) :
    ((do_GET p e).1.status = 200 ↔ (p = "/" ∨ p = "/health" ∨ p = "/state")) ∧
      (do_GET "/state?x=1" e).1 = send_json [("error", JValue.str "not found")] 404 ∧
      (do_GET "/state/" e).1 = send_json [("error", JValue.str "not found")] 404 := by
  refine ⟨?_, rfl, rfl⟩
  by_cases h1 : p = "/" <;> by_cases h2 : p = "/health" <;> by_cases h3 : p = "/state" <;>
    simp [do_GET, send_json, h1, h2, h3]

/-- C10 witness: the exact-match theorem instantiated at the query-string
path, discharging the route membership for `"/state"` itself as well. -/
theorem do_GET_exact_match_witness :
    (do_GET "/state?x=1" (TwinEngine.init "A")).1 =
        send_json [("error", JValue.str "not found")] 404 ∧
      (do_GET "/state" (TwinEngine.init "A")).1.status = 200 :=
  ⟨(do_GET_exact_match "/state?x=1" (TwinEngine.init "A")).2.1,
    ((do_GET_exact_match "/state" (TwinEngine.init "A")).1).mpr (Or.inr (Or.inr rfl))⟩

/-! ### CLI front end (`src/cli/main.py`)

Printing is modelled as the list of lines written to standard output.  A
Python exception escaping a command would surface as `Except.error`, so the
commands propagate any error of `load_assets` explicitly — and the theorems
show none ever occurs. -/

/-- `cmd_state` (lines 10–15): load assets, snapshot, print three lines. -/
def cmd_state (e : TwinEngine) (fs : FileSystem) : Except Unit (TwinEngine × List String) :=
  match e.load_assets fs with
  | Except.error u => Except.error u
  | Except.ok e1 =>
      Except.ok (e1,
        ["status: ok",
         "assets: " ++ toString e1.state.assets,
         "tick: " ++ toString e1.state.tick])

/-- `cmd_run` (lines 18–26): load assets, then `for _ in range(ticks)` call
`tick()` and sleep `interval` (the sleep does not touch the state); finally
snapshot and print.  `range(t)` of a Python int `t` iterates `max t 0` times,
which is `Int.toNat`. -/
def cmd_run (e : TwinEngine) (fs : FileSystem) (ticks : Int) (interval : Rat) :
    Except Unit (TwinEngine × List String) :=
  match e.load_assets fs with
  | Except.error u => Except.error u
  | Except.ok e1 =>
      let e2 := e1.tickN ticks.toNat
      Except.ok (e2,
        ["done ticks: " ++ toString ticks,
         "assets: " ++ toString e2.state.assets,
         "tick: " ++ toString e2.state.tick])

/-- A parsed CLI invocation.  `argparse` with `dest="cmd"` and optional
subcommands parses an empty argument list successfully with `args.cmd = None`
(`none` here); `run` carries its `ticks` positional (default 10) and
`--interval` option (default 0.2). -/
inductive CliCmd
  | state
  | run (ticks : Int) (interval : Rat)
deriving Repr

/-- `main` (lines 29–45): build one fresh engine with the default assets
directory, then dispatch — `if args.cmd == "run"` runs `cmd_run`, every other
parse result (the `state` subcommand or no subcommand at all) falls to the
`else` branch running `cmd_state`. -/
def cli_main (cmd : Option CliCmd) (fs : FileSystem) :
    Except Unit (TwinEngine × List String) :=
  match cmd with
  | some (CliCmd.run t i) => cmd_run (TwinEngine.init "00_Engineering_Source") fs t i
  | _ => cmd_state (TwinEngine.init "00_Engineering_Source") fs

/-- Server startup (`src/api/server.py` lines 9–10): one module-level engine
with the default assets directory, loaded once before serving. -/
def serverInit (fs : FileSystem) : Except Unit TwinEngine :=
  (TwinEngine.init "00_Engineering_Source").load_assets fs

/-! ### Error absorption and counting -/

theorem cmd_state_eq (e : TwinEngine) (fs : FileSystem) :
    cmd_state e fs = Except.ok (loadResult e fs,
      ["status: ok",
       "assets: " ++ toString (loadResult e fs).assets_count,
       "tick: " ++ toString (loadResult e fs).tick_count]) := by
  simp [cmd_state, load_assets_total, TwinEngine.state]

theorem cmd_run_eq (e : TwinEngine) (fs : FileSystem) (t : Int) (i : Rat) :
    cmd_run e fs t i = Except.ok ((loadResult e fs).tickN t.toNat,
      ["done ticks: " ++ toString t,
       "assets: " ++ toString ((loadResult e fs).tickN t.toNat).assets_count,
       "tick: " ++ toString ((loadResult e fs).tickN t.toNat).tick_count]) := by
  simp [cmd_run, load_assets_total, TwinEngine.state]

/-- C3: `load_assets` never raises — it always returns `Except.ok`; a missing
directory or a failing listing degrades `assets_count` to 0; consequently no
CLI invocation and no server startup ever sees an asset-source exception. -/
theorem load_assets_absorbs (e : TwinEngine) (fs : FileSystem) :
    e.load_assets fs = Except.ok (loadResult e fs) ∧
      (fs.isdir = false → e.load_assets fs = Except.ok { e with assets_count := 0 }) ∧
      (∀ u : Unit, fs.listdir = Except.error u →
        e.load_assets fs = Except.ok { e with assets_count := 0 }) ∧
      (∀ cmd, ∃ r, cli_main cmd fs = Except.ok r) ∧
      (∃ e2, serverInit fs = Except.ok e2) := by
  refine ⟨load_assets_total e fs, ?_, ?_, ?_, ?_⟩
  · intro h
    simp [TwinEngine.load_assets, h]
  · intro u h
    cases hd : fs.isdir with
    | false => simp [TwinEngine.load_assets, hd]
    | true => simp [TwinEngine.load_assets, hd, h]
  · intro cmd
    cases cmd with
    | none => exact ⟨_, cmd_state_eq _ fs⟩
    | some c =>
        cases c with
        | state => exact ⟨_, cmd_state_eq _ fs⟩
        | run t i => exact ⟨_, cmd_run_eq _ fs t i⟩
  · exact ⟨_, load_assets_total _ fs⟩

/-- C3 witness: on a nonexistent directory (with the listing also failing)
`load_assets` returns normally with `assets_count = 0`. -/
theorem load_assets_absorbs_witness :
    (TwinEngine.init "A").load_assets { isdir := false, listdir := Except.error () } =
      Except.ok { TwinEngine.init "A" with assets_count := 0 } :=
  ((load_assets_absorbs (TwinEngine.init "A")
    { isdir := false, listdir := Except.error () }).2.1) rfl

/-- C4: on a readable directory `load_assets` sets `assets_count` to the
number of entries not starting with `"."`; for `["a", ".hidden", "b"]` that
number is 2. -/
theorem load_assets_counts (e : TwinEngine) (fs : FileSystem) (entries : List String)
    (hdir : fs.isdir = true) (hls : fs.listdir = Except.ok entries) :
    e.load_assets fs =
        Except.ok { e with
          assets_count := (entries.filter (fun f => !startswith_dot f)).length } ∧
      e.load_assets { isdir := true, listdir := Except.ok ["a", ".hidden", "b"] } =
        Except.ok { e with assets_count := 2 } := by
  constructor
  · simp [TwinEngine.load_assets, hdir, hls]
  · rfl

/-- C4 witness: the counting theorem evaluated at the three-entry listing. -/
theorem load_assets_counts_witness :
    (TwinEngine.init "A").load_assets
        { isdir := true, listdir := Except.ok ["a", ".hidden", "b"] } =
      Except.ok { TwinEngine.init "A" with assets_count := 2 } :=
  (load_assets_counts (TwinEngine.init "A")
    { isdir := true, listdir := Except.ok ["a", ".hidden", "b"] }
    ["a", ".hidden", "b"] rfl rfl).1

/-- C8: frame effects — `tick()` changes only `tick_count`; `load_assets()`
changes only `assets_count`; the shared-state trace of `state()` contains no
write at all, and that of `tick()` writes only the tick counter. -/
theorem ops_frame (e : TwinEngine) (fs : FileSystem) (e1 : TwinEngine) :
    (e.tick.assets_count = e.assets_count ∧ e.tick.assets_dir = e.assets_dir ∧
        e.tick.running = e.running) ∧
      (e.load_assets fs = Except.ok e1 →
        e1.tick_count = e.tick_count ∧ e1.assets_dir = e.assets_dir ∧
          e1.running = e.running) ∧
      writesOf stateEvents = [] ∧
      writesOf tickEvents = [TwinField.tickCount] ∧
      writesOf loadAssetsEvents = [TwinField.assetsCount] := by
  refine ⟨⟨rfl, rfl, rfl⟩, ?_, by decide, by decide, by decide⟩
  intro h
  rw [load_assets_total] at h
  cases h
  exact ⟨rfl, rfl, rfl⟩

/-- C8 witness: the `load_assets` frame clause at a concrete engine and
filesystem (one visible entry), with the hypothesis discharged by
evaluation. -/
theorem ops_frame_witness :
    ({ TwinEngine.init "A" with assets_count := 1 } : TwinEngine).tick_count =
        (TwinEngine.init "A").tick_count ∧
      ({ TwinEngine.init "A" with assets_count := 1 } : TwinEngine).assets_dir =
        (TwinEngine.init "A").assets_dir ∧
      ({ TwinEngine.init "A" with assets_count := 1 } : TwinEngine).running =
        (TwinEngine.init "A").running :=
  ((ops_frame (TwinEngine.init "A") { isdir := true, listdir := Except.ok ["a"] }
    { TwinEngine.init "A" with assets_count := 1 }).2.1) rfl

/-- C6: `cmd_run` on a fresh engine performs `max ticks 0` advances — zero
advances for any non-positive `ticks`, leaving the just-loaded state (tick
still 0) to be printed with no error, and exactly `ticks` advances for
positive `ticks`. -/
theorem cmd_run_ticks (fs : FileSystem) (t : Int) (i : Rat) (d : String) :
    cmd_run (TwinEngine.init d) fs t i =
        Except.ok ((loadResult (TwinEngine.init d) fs).tickN t.toNat,
          ["done ticks: " ++ toString t,
           "assets: " ++ toString (loadResult (TwinEngine.init d) fs).assets_count,
           "tick: " ++ toString t.toNat]) ∧
      ((loadResult (TwinEngine.init d) fs).tickN t.toNat).tick_count = t.toNat ∧
      (t ≤ 0 →
        (loadResult (TwinEngine.init d) fs).tickN t.toNat =
            loadResult (TwinEngine.init d) fs ∧
          t.toNat = 0) ∧
      (0 < t → (t.toNat : Int) = t) := by
  have hcount : ((loadResult (TwinEngine.init d) fs).tickN t.toNat).tick_count = t.toNat := by
    simp [tickN_tick_count, loadResult, TwinEngine.init]
  refine ⟨?_, hcount, ?_, ?_⟩
  · simp [cmd_run, load_assets_total, TwinEngine.state, hcount, (tickN_frame _ _).1]
  · intro h
    have h0 : t.toNat = 0 := Int.toNat_of_nonpos h
    simp [h0, TwinEngine.tickN]
  · intro h
    exact Int.toNat_of_nonneg (le_of_lt h)

/-- C6 witness: the theorem applied at `ticks = -3` (non-positive: zero
advances, state unchanged) and at `ticks = 5` (positive: exactly five
advances). -/
theorem cmd_run_ticks_witness :
    ((loadResult (TwinEngine.init "A") { isdir := false, listdir := Except.error () }).tickN
          (Int.toNat (-3)) =
        loadResult (TwinEngine.init "A") { isdir := false, listdir := Except.error () } ∧
      Int.toNat (-3) = 0) ∧
      ((Int.toNat 5 : Int) = 5) :=
  ⟨(cmd_run_ticks { isdir := false, listdir := Except.error () } (-3) 0 "A").2.2.1
      (by decide),
    (cmd_run_ticks { isdir := false, listdir := Except.error () } 5 0 "A").2.2.2
      (by decide)⟩

/-- C9: invoking the CLI with no subcommand dispatches exactly as the `state`
subcommand does — one asset load, then the status, assets and tick lines,
with no error. -/
theorem cli_default_is_state (fs : FileSystem) :
    cli_main none fs = cli_main (some CliCmd.state) fs ∧
      cli_main none fs =
        Except.ok (loadResult (TwinEngine.init "00_Engineering_Source") fs,
          ["status: ok",
           "assets: " ++
             toString (loadResult (TwinEngine.init "00_Engineering_Source") fs).assets_count,
           "tick: " ++ toString (0 : Nat)]) := by
  constructor
  · rfl
  · simp [cli_main, cmd_state, load_assets_total, TwinEngine.state, loadResult, TwinEngine.init]

end K1DT
